import Mathlib

/-!
Verification of the dang tree-sitter external scanner
(src/treesitter/src/scanner.c).

The scanner decides whether a newline in the source text acts as a
statement separator (the AUTOMATIC_NEWLINE external token) or as plain
whitespace.  We embed the C functions shallowly: the TSLexer cursor is
the list of unconsumed characters together with the result_symbol
field; lookahead at end of input is the NUL sentinel, exactly as the
tree-sitter runtime presents it.
-/

namespace DangScanner

/-- External token kinds: AUTOMATIC_NEWLINE is index 0 in the
grammar externals array. -/
def AUTOMATIC_NEWLINE : Nat := 0

/-- The NUL sentinel that the tree-sitter lexer exposes as lookahead at
end of input. -/
def nulChar : Char := Char.ofNat 0

/-- Model of the TSLexer cursor: the unconsumed characters of the input
buffer and the result_symbol field the scanner may set. -/
structure TSLexer where
  input : List Char
  result_symbol : Option Nat
deriving Repr, DecidableEq

/-- The lookahead character: the next unconsumed character, or the NUL
sentinel at end of input. -/
def TSLexer.lookahead (lx : TSLexer) : Char := lx.input.headD nulChar

/-- Consume one character and move the cursor forward. -/
def TSLexer.advance (lx : TSLexer) : TSLexer := { lx with input := lx.input.tail }

/-- End-of-input query. -/
def TSLexer.eof (lx : TSLexer) : Bool := lx.input.isEmpty

/-- Embeds is_continuation_start: true for a character that, as the
first non-whitespace character on a subsequent line, indicates
continuation of the previous expression. -/
def is_continuation_start (c : Char) : Bool :=
  c = '.' || c = '{' || c = '|'

/-- The condition of the whitespace-skipping loop in scan: space, tab,
carriage return, or newline. -/
def is_scanner_ws (c : Char) : Bool :=
  c = ' ' || c = '\t' || c = '\r' || c = '\n'

/-- The whitespace-skipping loop of scan, acting on the unconsumed part
of the buffer: advance while the lookahead is a space, tab, carriage
return, or newline.  At end of input the loop condition fails because
the lookahead is the NUL sentinel. -/
def skip_ws_loop : List Char → List Char
  | [] => []
  | c :: rest => if is_scanner_ws c then skip_ws_loop rest else c :: rest

/-- Embeds tree_sitter_dang_external_scanner_create: returns the null
handle, no state is allocated. -/
def tree_sitter_dang_external_scanner_create : Option Unit := none

/-- Embeds tree_sitter_dang_external_scanner_destroy: releases
nothing. -/
def tree_sitter_dang_external_scanner_destroy (payload : Option Unit) : Unit := ()

/-- Embeds tree_sitter_dang_external_scanner_serialize: returns 0
bytes written and leaves the caller buffer untouched. -/
def tree_sitter_dang_external_scanner_serialize (payload : Option Unit)
    (buffer : List Char) : Nat × List Char := (0, buffer)

/-- Embeds tree_sitter_dang_external_scanner_deserialize: restores
nothing, the scanner state is unchanged. -/
def tree_sitter_dang_external_scanner_deserialize (payload : Option Unit)
    (buffer : List Char) (length : Nat) : Option Unit := payload

/-- Embeds tree_sitter_dang_external_scanner_scan.  Returns the verdict
(true = Separator, false = NotApplicable) together with the lexer state
after the call. -/
def tree_sitter_dang_external_scanner_scan (payload : Option Unit) (lexer : TSLexer)
    (valid_symbols : Nat → Bool) : Bool × TSLexer :=
  if valid_symbols AUTOMATIC_NEWLINE = false then (false, lexer)
  else if lexer.lookahead ≠ '\n' then (false, lexer)
  else
    let lx1 := lexer.advance
    let lx2 : TSLexer := { lx1 with input := skip_ws_loop lx1.input }
    if is_continuation_start lx2.lookahead then (false, lx2)
    else if lx2.eof then (false, lx2)
    else (true, { lx2 with result_symbol := some AUTOMATIC_NEWLINE })

/-! Helper lemmas shared by the claim theorems. -/

/-- If a guard fails (token not permitted, or lookahead not a newline),
scan returns NotApplicable with the lexer untouched. -/
theorem scan_guard_fail (payload : Option Unit) (lexer : TSLexer)
    (valid_symbols : Nat → Bool)
    (h : valid_symbols AUTOMATIC_NEWLINE = false ∨ lexer.lookahead ≠ '\n') :
    tree_sitter_dang_external_scanner_scan payload lexer valid_symbols = (false, lexer) := by
  rcases h with h | h
  · simp [tree_sitter_dang_external_scanner_scan, h]
  · simp [tree_sitter_dang_external_scanner_scan, h]

/-- The whitespace loop consumes an all-whitespace buffer entirely. -/
theorem skip_ws_loop_nil_of_all_ws (l : List Char)
    (h : ∀ c ∈ l, is_scanner_ws c = true) : skip_ws_loop l = [] := by
  induction l with
  | nil => rfl
  | cons c rest ih =>
      have hc : is_scanner_ws c = true := h c (List.mem_cons_self c rest)
      simp [skip_ws_loop, hc]
      exact ih fun x hx => h x (List.mem_cons_of_mem c hx)

/-- Dropping the leading whitespace never lengthens the buffer. -/
theorem length_dropWhile_ws_le (l : List Char) :
    (l.dropWhile is_scanner_ws).length ≤ l.length := by
  induction l with
  | nil => simp
  | cons c rest ih =>
      by_cases hc : is_scanner_ws c = true
      · simp only [List.dropWhile, hc]
        exact Nat.le_trans ih (Nat.le_succ _)
      · simp at hc
        simp [List.dropWhile, hc]

/-- Whenever scan returns NotApplicable, the lexer it returns carries
the same result_symbol as the lexer it was given. -/
theorem scan_false_keeps_result_symbol (payload : Option Unit) (lexer lxr : TSLexer)
    (valid_symbols : Nat → Bool)
    (hs : tree_sitter_dang_external_scanner_scan payload lexer valid_symbols = (false, lxr)) :
    lxr.result_symbol = lexer.result_symbol := by
  simp only [tree_sitter_dang_external_scanner_scan, TSLexer.advance] at hs
  split at hs
  · injection hs with h1 h2
    rw [← h2]
  · split at hs
    · injection hs with h1 h2
      rw [← h2]
    · split at hs
      · injection hs with h1 h2
        rw [← h2]
      · split at hs
        · injection hs with h1 h2
          rw [← h2]
        · injection hs with h1 h2
          exact Bool.noConfusion h1

/-! Claim theorems. -/

/-- Claim C1: when the automatic-newline token is permitted, the cursor
starts on a newline, and the first character after skipping whitespace
exists and is neither a continuation-start character nor end-of-input,
scan returns the Separator verdict tagged AUTOMATIC_NEWLINE and leaves
the cursor at that first significant character. -/
theorem scan_separator_on_significant (payload : Option Unit) (valid_symbols : Nat → Bool)
    (rs : Option Nat) (rest tail : List Char) (c : Char)
    (hperm : valid_symbols AUTOMATIC_NEWLINE = true)
    (hskip : skip_ws_loop rest = c :: tail)
    (hcont : is_continuation_start c = false) :
    tree_sitter_dang_external_scanner_scan payload ⟨'\n' :: rest, rs⟩ valid_symbols
      = (true, ⟨c :: tail, some AUTOMATIC_NEWLINE⟩) := by
  simp [tree_sitter_dang_external_scanner_scan, TSLexer.lookahead, TSLexer.advance,
    TSLexer.eof, hperm, hskip, hcont]

/-- Witness for claim C1 on the input newline-f-o-o with the token
permitted. -/
theorem scan_separator_on_significant_witness :
    tree_sitter_dang_external_scanner_scan none ⟨'\n' :: ['f', 'o', 'o'], none⟩ (fun _ => true)
      = (true, ⟨['f', 'o', 'o'], some AUTOMATIC_NEWLINE⟩) :=
  scan_separator_on_significant none (fun _ => true) none ['f', 'o', 'o'] ['o', 'o'] 'f'
    rfl (by decide) (by decide)

/-- Claim C2: when the automatic-newline token is permitted, the cursor
starts on a newline, and the first non-whitespace character afterwards
is a continuation-start character, scan returns NotApplicable with the
cursor immediately before that character. -/
theorem scan_not_applicable_on_continuation (payload : Option Unit)
    (valid_symbols : Nat → Bool) (rs : Option Nat) (rest tail : List Char) (c : Char)
    (hperm : valid_symbols AUTOMATIC_NEWLINE = true)
    (hskip : skip_ws_loop rest = c :: tail)
    (hcont : is_continuation_start c = true) :
    tree_sitter_dang_external_scanner_scan payload ⟨'\n' :: rest, rs⟩ valid_symbols
      = (false, ⟨c :: tail, rs⟩) := by
  simp [tree_sitter_dang_external_scanner_scan, TSLexer.lookahead, TSLexer.advance,
    hperm, hskip, hcont]

/-- Witness for claim C2 on the input newline-dot-f-o-o with the token
permitted. -/
theorem scan_not_applicable_on_continuation_witness :
    tree_sitter_dang_external_scanner_scan none ⟨'\n' :: ['.', 'f', 'o', 'o'], none⟩
        (fun _ => true)
      = (false, ⟨['.', 'f', 'o', 'o'], none⟩) :=
  scan_not_applicable_on_continuation none (fun _ => true) none
    ['.', 'f', 'o', 'o'] ['f', 'o', 'o'] '.' rfl (by decide) (by decide)

/-- Claim C3: when the automatic-newline token is permitted, the cursor
starts on a newline, and only whitespace remains before end-of-input,
scan returns NotApplicable: no separator is synthesized at
end-of-input. -/
theorem scan_not_applicable_at_eof (payload : Option Unit) (valid_symbols : Nat → Bool)
    (rs : Option Nat) (rest : List Char)
    (hperm : valid_symbols AUTOMATIC_NEWLINE = true)
    (hws : ∀ c ∈ rest, is_scanner_ws c = true) :
    tree_sitter_dang_external_scanner_scan payload ⟨'\n' :: rest, rs⟩ valid_symbols
      = (false, ⟨[], rs⟩) := by
  have hskip : skip_ws_loop rest = [] := skip_ws_loop_nil_of_all_ws rest hws
  simp [tree_sitter_dang_external_scanner_scan, TSLexer.lookahead, TSLexer.advance,
    TSLexer.eof, hperm, hskip, is_continuation_start, nulChar]

/-- Witness for claim C3 on the input consisting of a single newline
with the token permitted. -/
theorem scan_not_applicable_at_eof_witness :
    tree_sitter_dang_external_scanner_scan none ⟨['\n'], none⟩ (fun _ => true)
      = (false, ⟨[], none⟩) :=
  scan_not_applicable_at_eof none (fun _ => true) none [] rfl (by decide)

/-- Claim C4: if the automatic-newline token is not permitted, or the
character under the cursor is not a newline, scan returns NotApplicable
and leaves the lexer completely untouched. -/
theorem scan_frame_on_guard_fail (payload : Option Unit) (lexer : TSLexer)
    (valid_symbols : Nat → Bool)
    (h : valid_symbols AUTOMATIC_NEWLINE = false ∨ lexer.lookahead ≠ '\n') :
    tree_sitter_dang_external_scanner_scan payload lexer valid_symbols = (false, lexer) :=
  scan_guard_fail payload lexer valid_symbols h

/-- Witness for claim C4 at a cursor not on a newline. -/
theorem scan_frame_on_guard_fail_witness :
    tree_sitter_dang_external_scanner_scan none ⟨['a', '\n'], none⟩ (fun _ => true)
      = (false, ⟨['a', '\n'], none⟩) :=
  scan_frame_on_guard_fail none ⟨['a', '\n'], none⟩ (fun _ => true)
    (Or.inr (by decide))

/-- Claim C5: scan returns the Separator verdict exactly when the
automatic-newline token is permitted, the cursor starts on a newline,
and the first non-whitespace character afterwards exists and is not a
continuation-start character; in every other case the Boolean result is
NotApplicable. -/
theorem scan_separator_iff (payload : Option Unit) (lexer : TSLexer)
    (valid_symbols : Nat → Bool) :
    (tree_sitter_dang_external_scanner_scan payload lexer valid_symbols).1 = true ↔
      (valid_symbols AUTOMATIC_NEWLINE = true ∧
        ∃ rest c tail, lexer.input = '\n' :: rest ∧ skip_ws_loop rest = c :: tail ∧
          is_continuation_start c = false) := by
  constructor
  · intro h
    by_cases hperm : valid_symbols AUTOMATIC_NEWLINE = false
    · rw [scan_guard_fail payload lexer valid_symbols (Or.inl hperm)] at h
      simp at h
    · by_cases hnl : lexer.lookahead = '\n'
      · refine ⟨by simpa using hperm, ?_⟩
        cases hin : lexer.input with
        | nil =>
            exfalso
            have : lexer.lookahead = nulChar := by
              simp [TSLexer.lookahead, hin]
            rw [this] at hnl
            exact absurd hnl (by decide)
        | cons a rest =>
            have ha : a = '\n' := by
              have : lexer.lookahead = a := by simp [TSLexer.lookahead, hin]
              rw [this] at hnl
              exact hnl
            subst ha
            cases hskip : skip_ws_loop rest with
            | nil =>
                exfalso
                rw [tree_sitter_dang_external_scanner_scan] at h
                simp [hperm, hnl, TSLexer.advance, TSLexer.lookahead, TSLexer.eof,
                  hin, hskip, is_continuation_start, nulChar] at h
            | cons c tail =>
                refine ⟨rest, c, tail, rfl, hskip, ?_⟩
                by_contra hcont
                have hcont : is_continuation_start c = true := by
                  simpa using hcont
                rw [tree_sitter_dang_external_scanner_scan] at h
                simp [hperm, hnl, TSLexer.advance, TSLexer.lookahead,
                  hin, hskip, hcont] at h
      · rw [scan_guard_fail payload lexer valid_symbols (Or.inr hnl)] at h
        simp at h
  · rintro ⟨hperm, rest, c, tail, hin, hskip, hcont⟩
    cases lexer with
    | mk input rs =>
        simp only at hin
        subst hin
        rw [scan_separator_on_significant payload valid_symbols rs rest tail c
          hperm hskip hcont]

/-- Claim C6: the whitespace-skipping loop consumes exactly the leading
characters in the set space, tab, carriage return, newline; it leaves a
suffix of the buffer, so it never advances past end-of-input, and the
remaining length never exceeds the original length. -/
theorem skip_ws_loop_spec (l : List Char) :
    skip_ws_loop l = l.dropWhile is_scanner_ws ∧
    (∀ c ∈ l.takeWhile is_scanner_ws, is_scanner_ws c = true) ∧
    l.takeWhile is_scanner_ws ++ skip_ws_loop l = l ∧
    (skip_ws_loop l).length ≤ l.length := by
  have hdrop : skip_ws_loop l = l.dropWhile is_scanner_ws := by
    induction l with
    | nil => rfl
    | cons c rest ih =>
        by_cases hc : is_scanner_ws c = true
        · simp [skip_ws_loop, List.dropWhile, hc, ih]
        · simp at hc
          simp [skip_ws_loop, List.dropWhile, hc]
  refine ⟨hdrop, fun c hc => List.mem_takeWhile_imp hc, ?_, ?_⟩
  · rw [hdrop]
    exact List.takeWhile_append_dropWhile is_scanner_ws l
  · rw [hdrop]
    exact length_dropWhile_ws_le l

/-- Claim C7: if scan returns NotApplicable and the resulting cursor is
not on a newline, calling scan again at that position, with any payload
and any flag function, again returns NotApplicable and performs no
further mutation. -/
theorem scan_idempotent_after_not_applicable (p1 p2 : Option Unit)
    (v1 v2 : Nat → Bool) (lx1 lx2 : TSLexer)
    (h1 : tree_sitter_dang_external_scanner_scan p1 lx1 v1 = (false, lx2))
    (h2 : lx2.lookahead ≠ '\n') :
    tree_sitter_dang_external_scanner_scan p2 lx2 v2 = (false, lx2) :=
  scan_guard_fail p2 lx2 v2 (Or.inr h2)

/-- Witness for claim C7: a first call at a non-newline cursor returns
NotApplicable, and a second call at the resulting position returns
NotApplicable without mutation. -/
theorem scan_idempotent_after_not_applicable_witness :
    tree_sitter_dang_external_scanner_scan none ⟨['a'], none⟩ (fun _ => false)
      = (false, ⟨['a'], none⟩) :=
  scan_idempotent_after_not_applicable none none (fun _ => true) (fun _ => false)
    ⟨['a'], none⟩ ⟨['a'], none⟩ rfl (by decide)

/-- Claim C8: the scanner lifecycle is a no-op: serialize returns 0 and
leaves the buffer untouched, deserialize changes no state, create
returns the fixed null handle, and destroy releases nothing. -/
theorem scanner_lifecycle_no_op (p pd : Option Unit) (buffer : List Char) (len : Nat) :
    tree_sitter_dang_external_scanner_serialize p buffer = (0, buffer) ∧
    tree_sitter_dang_external_scanner_deserialize pd buffer len = pd ∧
    tree_sitter_dang_external_scanner_create = none ∧
    tree_sitter_dang_external_scanner_destroy p = () :=
  ⟨rfl, rfl, rfl, rfl⟩

/-- Claim C9: scan never reads its payload argument: for any two
payload values, identical lexer state and flag function, the verdict
and the resulting lexer state are identical. -/
theorem scan_payload_independent (p1 p2 : Option Unit) (lexer : TSLexer)
    (valid_symbols : Nat → Bool) :
    tree_sitter_dang_external_scanner_scan p1 lexer valid_symbols
      = tree_sitter_dang_external_scanner_scan p2 lexer valid_symbols := rfl

/-- Claim C10: whenever scan returns NotApplicable, the result_symbol
field of the lexer is unchanged from its value before the call; it is
written only on the Separator path. -/
theorem scan_result_symbol_frame (payload : Option Unit) (lexer : TSLexer)
    (valid_symbols : Nat → Bool)
    (h : (tree_sitter_dang_external_scanner_scan payload lexer valid_symbols).1 = false) :
    ((tree_sitter_dang_external_scanner_scan payload lexer valid_symbols).2).result_symbol
      = lexer.result_symbol := by
  rcases hs : tree_sitter_dang_external_scanner_scan payload lexer valid_symbols with ⟨b, lxr⟩
  rw [hs] at h
  simp at h
  subst h
  exact scan_false_keeps_result_symbol payload lexer lxr valid_symbols hs

/-- Witness for claim C10 at a cursor not on a newline with a
previously set result_symbol. -/
theorem scan_result_symbol_frame_witness :
    ((tree_sitter_dang_external_scanner_scan none ⟨['a'], some 5⟩ (fun _ => true)).2).result_symbol
      = some 5 :=
  scan_result_symbol_frame none ⟨['a'], some 5⟩ (fun _ => true) rfl

end DangScanner
